import Mathlib

/-!
# Metric action handler of the monitoring API

A shallow embedding of `MetricHandler.Action`
(`pkg/api/customization/monitor/metric_action.go`) and the properties of it
that the specification of the cross-cluster metrics query gateway states.

The handler is a straight-line chain of calls to collaborators (request
decoding, cluster registry, token issuance, Prometheus client construction,
range query, label values).  None of the collaborators is defined in the
file, so each of them is a field of `Env`.  Collaborators that reach outside
the process receive the list of events that happened so far, so that their
answers may depend on everything that went before (two calls with equal
arguments may answer differently).  `Action` returns the returned `error`
together with the chronological list of events it caused.
-/

namespace Monitor

deriving instance DecidableEq for Except

/-! ## Go values -/

/-- Go `error` values.  `errorString` is what `fmt.Errorf` builds from a format
without a wrapping verb; `other` stands for every error value a collaborator
may hand back (its dynamic type and its message). -/
inductive GoError where
  | errorString (msg : String)
  | other (typ : String) (msg : String)
deriving DecidableEq, Repr

/-- The `Error()` method. -/
def GoError.Error : GoError → String
  | .errorString msg => msg
  | .other _ msg => msg

/-- Call `fmt.Errorf(msg)` with a format that has no verb. -/
def fmtErrorf (msg : String) : GoError := .errorString msg

/-- Call `fmt.Errorf(lead + "%v", err)`: a fresh error whose message is the
lead text followed by the message of `err`. -/
def fmtErrorfV (lead : String) (err : GoError) : GoError :=
  .errorString (lead ++ err.Error)

/-- A Go slice value: `nil`, or a (possibly zero-length) allocated slice. -/
inductive GoSlice (α : Type) where
  | nil
  | mk (elems : List α)
deriving DecidableEq, Repr

/-- Go `len`. -/
def GoSlice.len {α : Type} : GoSlice α → Nat
  | .nil => 0
  | .mk elems => elems.length

/-- A `time.Time`, as seconds. -/
abbrev Time := Int

/-- A `time.Duration`. -/
abbrev Duration := Int

/-- A `context.Context`: the background context or a context with a timeout
derived from a parent. -/
inductive Context where
  | Background
  | WithTimeout (parent : Context) (timeout : Duration)
deriving DecidableEq, Repr

/-- The constant `http.StatusOK`. -/
def StatusOK : Nat := 200

/-- The constant `http.StatusNoContent`. -/
def StatusNoContent : Nat := 204

/-! ## `sets.String` (k8s.io/apimachinery) -/

/-- Go compares strings bytewise; on well-formed UTF-8 that is the
lexicographic order of the code points, which is the order used here. -/
def goStringLE (a b : String) : Prop := a.toList ≤ b.toList

instance : DecidableRel goStringLE := fun a b => by unfold goStringLE; infer_instance

/-- Strict version of `goStringLE`: Go's `a < b` on strings. -/
def goStringLT (a b : String) : Prop := a.toList < b.toList

instance : DecidableRel goStringLT := fun a b => by unfold goStringLT; infer_instance

/-- The type `sets.String` is `map[string]struct{}`: a finite set of keys.  The keys are
kept in a duplicate-free list; its order stands for the unspecified iteration
order of the Go map. -/
structure StringSet where
  keys : List String
deriving DecidableEq, Repr

/-- The literal `sets.String{}`. -/
def StringSet.empty : StringSet := ⟨[]⟩

/-- One assignment `s[item] = Empty{}`. -/
def StringSet.insertOne (s : StringSet) (item : String) : StringSet :=
  if item ∈ s.keys then s else ⟨s.keys ++ [item]⟩

/-- Method `func (s String) Insert(items ...string)`: assigns every item in turn. -/
def StringSet.Insert (s : StringSet) (items : List String) : StringSet :=
  items.foldl StringSet.insertOne s

/-- Method `func (s String) List() []string`: the keys, sorted with `sort.Sort`. -/
def StringSet.List (s : StringSet) : List String :=
  s.keys.insertionSort goStringLE

/-! ## Types of the request and of the collaborators -/

/-- The `*http.Request` as far as the handler uses it: the body to decode. -/
structure Request where
  Body : String
deriving DecidableEq, Repr

/-- The decoded body, `map[string]interface{}`. -/
abbrev ActionInput := List (String × String)

/-- The struct `v3.CommonQueryMetricInput`. -/
structure CommonQueryMetricInput where
  From : String
  To : String
  Interval : String
  Expr : String
deriving DecidableEq, Repr

/-- The struct `v3.QueryClusterMetricInput`. -/
structure QueryClusterMetricInput where
  ClusterName : String
  CommonQueryMetricInput : CommonQueryMetricInput
deriving DecidableEq, Repr

/-- The struct `v3.QueryProjectMetricInput`. -/
structure QueryProjectMetricInput where
  ProjectName : String
  CommonQueryMetricInput : CommonQueryMetricInput
deriving DecidableEq, Repr

/-- The struct `v3.ClusterMetricNamesInput`. -/
structure ClusterMetricNamesInput where
  ClusterName : String
deriving DecidableEq, Repr

/-- The struct `v3.ProjectMetricNamesInput`. -/
structure ProjectMetricNamesInput where
  ProjectName : String
deriving DecidableEq, Repr

/-- The type `*config.UserContext`, the handle of a remote cluster. -/
structure UserContext where
  ClusterName : String
  handle : Nat
deriving DecidableEq, Repr

/-- The type `*Queries`, the Prometheus client that `NewPrometheusQuery` returns. -/
structure Queries where
  handle : Nat
deriving DecidableEq, Repr

/-- The type `*PrometheusQuery`, declared elsewhere in the package: the record of the
arguments given to `InitPromQuery`. -/
structure PrometheusQuery where
  ID : String
  Start : Time
  End : Time
  Step : Duration
  Expr : String
  LegendFormat : String
  IsInstanceQuery : Bool
deriving DecidableEq, Repr

/-- The constructor `InitPromQuery`, declared elsewhere in the package: it stores
its arguments. -/
def InitPromQuery (id : String) (start finish : Time) (step : Duration)
    (expr format : String) (isInstanceQuery : Bool) : PrometheusQuery :=
  ⟨id, start, finish, step, expr, format, isInstanceQuery⟩

/-- The type `*TimeSeries`, declared elsewhere in the package: a named series of
sample points. -/
structure TimeSeries where
  Name : String
  Points : List (Int × Int)
deriving DecidableEq, Repr

/-- The `map[string]interface{}` values the handler builds for a response:
`type` is `queryMetricOutput` with a `series` entry, or `metricNamesOutput`
with a `names` entry. -/
inductive ResponseData where
  | queryMetricOutput (series : GoSlice TimeSeries)
  | metricNamesOutput (names : List String)
deriving DecidableEq, Repr

/-- What the handler does to the outside, in the order it does it.  Calls
carry their arguments and their result. -/
inductive Event where
  | UserContext (clusterName : String) (res : Except GoError UserContext)
  | getAuthToken (userContext : UserContext) (appName saNamespace : String)
      (res : Except GoError String)
  | WithTimeout (ctx : Context)
  | NewPrometheusQuery (ctx : Context) (userContext : UserContext)
      (clusterName token svcNamespace svcName : String) (res : Except GoError Queries)
  | QueryRange (client : Queries) (query : PrometheusQuery)
      (res : Except GoError (GoSlice TimeSeries))
  | GetLabelValues (client : Queries) (label : String) (res : Except GoError (List String))
  | WriteResponse (code : Nat) (data : Option ResponseData)
  | ResponseWrite (body : String)
  | cancel (ctx : Context)
deriving DecidableEq

/-- Everything `Action` calls that is not defined in its file. -/
structure Env where
  ReadBody : Request → Except GoError ActionInput
  ToObjQueryCluster : ActionInput → Except GoError QueryClusterMetricInput
  ToObjQueryProject : ActionInput → Except GoError QueryProjectMetricInput
  ToObjClusterMetricNames : ActionInput → Except GoError ClusterMetricNamesInput
  ToObjProjectMetricNames : ActionInput → Except GoError ProjectMetricNamesInput
  refParse : String → String × String
  ClusterMonitoringInfo : String × String
  ClusterPrometheusEndpoint : String × String × String
  ProjectMonitoringInfo : String → String × String
  ProjectPrometheusServiceInfo : String → String × String
  parseTimeParams : String → String → String → Except GoError (Time × Time × Duration)
  prometheusReqTimeout : Duration
  jsonMarshal : ResponseData → Except GoError String
  clustermanagerUserContext : List Event → String → Except GoError UserContext
  getAuthToken : List Event → UserContext → String → String → Except GoError String
  NewPrometheusQuery : List Event → Context → UserContext → String → String → String →
    String → Except GoError Queries
  QueryRange : List Event → Queries → PrometheusQuery → Except GoError (GoSlice TimeSeries)
  GetLabelValues : List Event → Queries → String → Except GoError (List String)

/-- The value of `actionName`.  The four constants are declared elsewhere in
the package; every string that is none of them is `other`. -/
inductive ActionName where
  | querycluster
  | queryproject
  | listclustermetricname
  | listprojectmetricname
  | other (name : String)
deriving DecidableEq, Repr

/-- The result of one call of `Action`: the events it caused, oldest first, and
the returned error (`none` for `nil`). -/
structure Outcome where
  trace : List Event
  err : Option GoError
deriving DecidableEq

/-- The variables `clusterName`, `appName`, `saNamespace`, `svcNamespace`,
`svcName` and `comm` that the first part of the query case sets. -/
structure QueryScope where
  clusterName : String
  appName : String
  saNamespace : String
  svcNamespace : String
  svcName : String
  comm : CommonQueryMetricInput
deriving DecidableEq, Repr

/-! ## The handler -/

/-- Lines 40-79: decoding of the body of a `querycluster` or `queryproject`
request and the choice of the service account and of the Prometheus service. -/
def queryScope (env : Env) (actionName : ActionName) (request : Request) :
    Except GoError QueryScope :=
  if actionName = ActionName.querycluster then
    match env.ReadBody request with
    | .error err => .error err
    | .ok actionInput =>
      match env.ToObjQueryCluster actionInput with
      | .error err => .error err
      | .ok queryMetricInput =>
        let clusterName := queryMetricInput.ClusterName
        if clusterName = "" then
          .error (fmtErrorf "clusterName is empty")
        else
          let comm := queryMetricInput.CommonQueryMetricInput
          let (appName, saNamespace) := env.ClusterMonitoringInfo
          let (svcName, svcNamespace, _) := env.ClusterPrometheusEndpoint
          .ok ⟨clusterName, appName, saNamespace, svcNamespace, svcName, comm⟩
  else
    match env.ReadBody request with
    | .error err => .error err
    | .ok actionInput =>
      match env.ToObjQueryProject actionInput with
      | .error err => .error err
      | .ok queryMetricInput =>
        let projectID := queryMetricInput.ProjectName
        let (clusterName, projectName) := env.refParse projectID
        if clusterName = "" then
          .error (fmtErrorf "clusterName is empty")
        else
          let comm := queryMetricInput.CommonQueryMetricInput
          let (appName, saNamespace) := env.ProjectMonitoringInfo projectName
          let (svcName, svcNamespace) := env.ProjectPrometheusServiceInfo projectName
          .ok ⟨clusterName, appName, saNamespace, svcNamespace, svcName, comm⟩

/-- Lines 81-124: the part of the query case that both actions share. -/
def queryRange (env : Env) (sc : QueryScope) : Outcome :=
  match env.parseTimeParams sc.comm.From sc.comm.To sc.comm.Interval with
  | .error err => ⟨[], some err⟩
  | .ok (start, finish, step) =>
    match env.clustermanagerUserContext [] sc.clusterName with
    | .error err =>
      ⟨[.UserContext sc.clusterName (.error err)],
        some (fmtErrorfV "get usercontext failed, " err)⟩
    | .ok userContext =>
      let t1 := [Event.UserContext sc.clusterName (.ok userContext)]
      match env.getAuthToken t1 userContext sc.appName sc.saNamespace with
      | .error err =>
        ⟨t1 ++ [.getAuthToken userContext sc.appName sc.saNamespace (.error err)], some err⟩
      | .ok token =>
        let reqContext := Context.WithTimeout Context.Background env.prometheusReqTimeout
        let t2 := t1 ++ [.getAuthToken userContext sc.appName sc.saNamespace (.ok token),
          .WithTimeout reqContext]
        match env.NewPrometheusQuery t2 reqContext userContext sc.clusterName token
            sc.svcNamespace sc.svcName with
        | .error err =>
          ⟨t2 ++ [.NewPrometheusQuery reqContext userContext sc.clusterName token
            sc.svcNamespace sc.svcName (.error err), .cancel reqContext], some err⟩
        | .ok prometheusQuery =>
          let t3 := t2 ++ [.NewPrometheusQuery reqContext userContext sc.clusterName token
            sc.svcNamespace sc.svcName (.ok prometheusQuery)]
          let query := InitPromQuery "" start finish step sc.comm.Expr "" false
          match env.QueryRange t3 prometheusQuery query with
          | .error err =>
            ⟨t3 ++ [.QueryRange prometheusQuery query (.error err), .cancel reqContext], some err⟩
          | .ok seriesSlice =>
            let t4 := t3 ++ [.QueryRange prometheusQuery query (.ok seriesSlice)]
            match seriesSlice with
            | .nil =>
              ⟨t4 ++ [.WriteResponse StatusNoContent none, .cancel reqContext], none⟩
            | .mk elems =>
              let data := ResponseData.queryMetricOutput (.mk elems)
              match env.jsonMarshal data with
              | .error err =>
                ⟨t4 ++ [.cancel reqContext],
                  some (fmtErrorfV "marshal query stats result failed, " err)⟩
              | .ok res =>
                ⟨t4 ++ [.ResponseWrite res, .cancel reqContext], none⟩

/-- Lines 126-170: the case `listclustermetricname`. -/
def listClusterMetricName (env : Env) (request : Request) : Outcome :=
  match env.ReadBody request with
  | .error err => ⟨[], some err⟩
  | .ok actionInput =>
    match env.ToObjClusterMetricNames actionInput with
    | .error err => ⟨[], some err⟩
    | .ok input =>
      let clusterName := input.ClusterName
      if clusterName = "" then
        ⟨[], some (fmtErrorf "clusterName is empty")⟩
      else
        match env.clustermanagerUserContext [] clusterName with
        | .error err =>
          ⟨[.UserContext clusterName (.error err)],
            some (fmtErrorfV "get usercontext failed, " err)⟩
        | .ok userContext =>
          let t1 := [Event.UserContext clusterName (.ok userContext)]
          let (appName, saNamespace) := env.ClusterMonitoringInfo
          match env.getAuthToken t1 userContext appName saNamespace with
          | .error err =>
            ⟨t1 ++ [.getAuthToken userContext appName saNamespace (.error err)], some err⟩
          | .ok token =>
            let reqContext := Context.WithTimeout Context.Background env.prometheusReqTimeout
            let t2 := t1 ++ [.getAuthToken userContext appName saNamespace (.ok token),
              .WithTimeout reqContext]
            let (svcName, svcNamespace, _) := env.ClusterPrometheusEndpoint
            match env.NewPrometheusQuery t2 reqContext userContext clusterName token
                svcNamespace svcName with
            | .error err =>
              ⟨t2 ++ [.NewPrometheusQuery reqContext userContext clusterName token
                svcNamespace svcName (.error err), .cancel reqContext], some err⟩
            | .ok prometheusQuery =>
              let t3 := t2 ++ [.NewPrometheusQuery reqContext userContext clusterName token
                svcNamespace svcName (.ok prometheusQuery)]
              match env.GetLabelValues t3 prometheusQuery "__name__" with
              | .error err =>
                ⟨t3 ++ [.GetLabelValues prometheusQuery "__name__" (.error err),
                  .cancel reqContext], some err⟩
              | .ok names =>
                let data := ResponseData.metricNamesOutput names
                ⟨t3 ++ [.GetLabelValues prometheusQuery "__name__" (.ok names),
                  .WriteResponse StatusOK (some data), .cancel reqContext], none⟩

/-- Lines 171-234: the case `listprojectmetricname`. -/
def listProjectMetricName (env : Env) (request : Request) : Outcome :=
  match env.ReadBody request with
  | .error err => ⟨[], some err⟩
  | .ok actionInput =>
    match env.ToObjProjectMetricNames actionInput with
    | .error err => ⟨[], some err⟩
    | .ok input =>
      let projectID := input.ProjectName
      let (clusterName, projectName) := env.refParse projectID
      if clusterName = "" then
        ⟨[], some (fmtErrorf "clusterName is empty")⟩
      else
        match env.clustermanagerUserContext [] clusterName with
        | .error err =>
          ⟨[.UserContext clusterName (.error err)],
            some (fmtErrorfV "get usercontext failed, " err)⟩
        | .ok userContext =>
          let t1 := [Event.UserContext clusterName (.ok userContext)]
          let (appName, saNamespace) := env.ProjectMonitoringInfo projectName
          match env.getAuthToken t1 userContext appName saNamespace with
          | .error err =>
            ⟨t1 ++ [.getAuthToken userContext appName saNamespace (.error err)], some err⟩
          | .ok token =>
            let reqContext := Context.WithTimeout Context.Background env.prometheusReqTimeout
            let t2 := t1 ++ [.getAuthToken userContext appName saNamespace (.ok token),
              .WithTimeout reqContext]
            let (projectSvcName, projectSvcNamespace) :=
              env.ProjectPrometheusServiceInfo projectName
            match env.NewPrometheusQuery t2 reqContext userContext clusterName token
                projectSvcNamespace projectSvcName with
            | .error err =>
              ⟨t2 ++ [.NewPrometheusQuery reqContext userContext clusterName token
                projectSvcNamespace projectSvcName (.error err), .cancel reqContext], some err⟩
            | .ok projectPrometheusQuery =>
              let t3 := t2 ++ [.NewPrometheusQuery reqContext userContext clusterName token
                projectSvcNamespace projectSvcName (.ok projectPrometheusQuery)]
              match env.GetLabelValues t3 projectPrometheusQuery "__name__" with
              | .error err =>
                ⟨t3 ++ [.GetLabelValues projectPrometheusQuery "__name__" (.error err),
                  .cancel reqContext],
                  some (fmtErrorfV "get project metric list failed, " err)⟩
              | .ok projectNames =>
                let t4 := t3 ++
                  [.GetLabelValues projectPrometheusQuery "__name__" (.ok projectNames)]
                let (clusterSvcName, clusterSvcNamespace, _) := env.ClusterPrometheusEndpoint
                match env.NewPrometheusQuery t4 reqContext userContext clusterName token
                    clusterSvcNamespace clusterSvcName with
                | .error err =>
                  ⟨t4 ++ [.NewPrometheusQuery reqContext userContext clusterName token
                    clusterSvcNamespace clusterSvcName (.error err), .cancel reqContext],
                    some err⟩
                | .ok clusterPrometheusQuery =>
                  let t5 := t4 ++ [.NewPrometheusQuery reqContext userContext clusterName
                    token clusterSvcNamespace clusterSvcName (.ok clusterPrometheusQuery)]
                  match env.GetLabelValues t5 clusterPrometheusQuery "__name__" with
                  | .error err =>
                    ⟨t5 ++ [.GetLabelValues clusterPrometheusQuery "__name__" (.error err),
                      .cancel reqContext],
                      some (fmtErrorfV "get cluster metric list failed, " err)⟩
                  | .ok clusterNames =>
                    let names := (StringSet.empty.Insert projectNames).Insert clusterNames
                    let data := ResponseData.metricNamesOutput names.List
                    ⟨t5 ++ [.GetLabelValues clusterPrometheusQuery "__name__"
                      (.ok clusterNames), .WriteResponse StatusOK (some data),
                      .cancel reqContext], none⟩

/-- The method `func (h *MetricHandler) Action(actionName, action, apiContext) error`: the
`switch` over the action name.  An action name that matches no case falls
through to `return nil`. -/
def Action (env : Env) (actionName : ActionName) (request : Request) : Outcome :=
  match actionName with
  | .querycluster | .queryproject =>
    match queryScope env actionName request with
    | .error err => ⟨[], some err⟩
    | .ok sc => queryRange env sc
  | .listclustermetricname => listClusterMetricName env request
  | .listprojectmetricname => listProjectMetricName env request
  | .other _ => ⟨[], none⟩

/-- Lines 226-232: the merge of the two name lists, `names.List()` after both
`Insert` calls on a fresh set. -/
def mergeNames (projectNames clusterNames : List String) : List String :=
  ((StringSet.empty.Insert projectNames).Insert clusterNames).List

/-! ## Reading a trace -/

/-- Events that hand something to the caller. -/
def Event.isResponse : Event → Bool
  | .WriteResponse _ _ => true
  | .ResponseWrite _ => true
  | _ => false

/-- The error of a call that failed. -/
def Event.failure : Event → Option GoError
  | .UserContext _ (.error err) => some err
  | .getAuthToken _ _ _ (.error err) => some err
  | .NewPrometheusQuery _ _ _ _ _ _ (.error err) => some err
  | .QueryRange _ _ (.error err) => some err
  | .GetLabelValues _ _ (.error err) => some err
  | _ => none

/-- Calls of a stage of the chain: registry lookup, token issuance, client
construction, range query, label values. -/
def Event.isCall : Event → Bool
  | .UserContext _ _ => true
  | .getAuthToken _ _ _ _ => true
  | .NewPrometheusQuery _ _ _ _ _ _ _ => true
  | .QueryRange _ _ _ => true
  | .GetLabelValues _ _ _ => true
  | _ => false

/-- The name lists that label-value calls returned successfully, in call order. -/
def labelValueResults (trace : List Event) : List (List String) :=
  trace.filterMap fun ev =>
    match ev with
    | .GetLabelValues _ _ (.ok names) => some names
    | _ => none

/-- The `names` entries of the responses written, in order. -/
def writtenNames (trace : List Event) : List (List String) :=
  trace.filterMap fun ev =>
    match ev with
    | .WriteResponse _ (some (.metricNamesOutput names)) => some names
    | _ => none

/-- The results that range queries returned successfully, in call order. -/
def queryRangeResults (trace : List Event) : List (GoSlice TimeSeries) :=
  trace.filterMap fun ev =>
    match ev with
    | .QueryRange _ _ (.ok series) => some series
    | _ => none

/-- Everything handed to the caller, in order. -/
def responses (trace : List Event) : List Event :=
  trace.filter Event.isResponse

/-- The service accounts for which a token was requested, with the answer. -/
def tokenRequests (trace : List Event) : List (String × String × Except GoError String) :=
  trace.filterMap fun ev =>
    match ev with
    | .getAuthToken _ appName saNamespace res => some (appName, saNamespace, res)
    | _ => none

/-- The backend clients constructed: service namespace, service name and the
token each was given. -/
def clientTokens (trace : List Event) : List (String × String × String) :=
  trace.filterMap fun ev =>
    match ev with
    | .NewPrometheusQuery _ _ _ token svcNamespace svcName _ => some (svcNamespace, svcName, token)
    | _ => none

/-- The cluster identifier of a request: the `clusterName` the handler tests
against the empty string, when the body decodes. -/
def requestClusterName (env : Env) (actionName : ActionName) (request : Request) :
    Option String :=
  match env.ReadBody request with
  | .error _ => none
  | .ok actionInput =>
    match actionName with
    | .querycluster =>
      match env.ToObjQueryCluster actionInput with
      | .error _ => none
      | .ok input => some input.ClusterName
    | .queryproject =>
      match env.ToObjQueryProject actionInput with
      | .error _ => none
      | .ok input => some (env.refParse input.ProjectName).1
    | .listclustermetricname =>
      match env.ToObjClusterMetricNames actionInput with
      | .error _ => none
      | .ok input => some input.ClusterName
    | .listprojectmetricname =>
      match env.ToObjProjectMetricNames actionInput with
      | .error _ => none
      | .ok input => some (env.refParse input.ProjectName).1
    | .other _ => none

/-- The error `Action` returns when the call `ev` of its trace has failed with
`err`: the lookup error and the label-value errors of the project listing are
replaced by a new error that quotes the message, every other error is returned
as it is. -/
def reportedError (actionName : ActionName) (trace : List Event) (ev : Event)
    (err : GoError) : GoError :=
  match ev with
  | .UserContext _ _ => fmtErrorfV "get usercontext failed, " err
  | .GetLabelValues _ _ _ =>
    if actionName = ActionName.listprojectmetricname then
      if labelValueResults trace = [] then fmtErrorfV "get project metric list failed, " err
      else fmtErrorfV "get cluster metric list failed, " err
    else err
  | _ => err

/-! ## A concrete environment -/

/-- A sample of `ref.Parse`: the text before the first colon and the text
after it; a reference without a colon has an empty first part. -/
def sampleRefParse (ref : String) : String × String :=
  let cs := ref.toList
  if ':' ∈ cs then
    (String.mk (cs.takeWhile (fun c => c ≠ ':')),
      String.mk ((cs.dropWhile (fun c => c ≠ ':')).drop 1))
  else ("", ref)

/-- A sample environment in which every collaborator answers: cluster `c1` is
the only known cluster, the project backend knows `cpu_usage` and the cluster
backend knows `cpu_usage` and `memory_usage`. -/
def sampleEnv : Env where
  ReadBody := fun r =>
    if r.Body = "c1?from=200&to=100" then .ok [("name", "c1"), ("from", "200"), ("to", "100")]
    else .ok [("name", r.Body)]
  ToObjQueryCluster := fun inp =>
    .ok ⟨(inp.lookup "name").getD "", ⟨(inp.lookup "from").getD "", (inp.lookup "to").getD "",
      (inp.lookup "interval").getD "", "up"⟩⟩
  ToObjQueryProject := fun inp =>
    .ok ⟨(inp.lookup "name").getD "", ⟨(inp.lookup "from").getD "", (inp.lookup "to").getD "",
      (inp.lookup "interval").getD "", "up"⟩⟩
  ToObjClusterMetricNames := fun inp => .ok ⟨(inp.lookup "name").getD ""⟩
  ToObjProjectMetricNames := fun inp => .ok ⟨(inp.lookup "name").getD ""⟩
  refParse := sampleRefParse
  ClusterMonitoringInfo := ("cluster-monitoring", "cattle-prometheus")
  ClusterPrometheusEndpoint := ("prometheus-operated", "cattle-prometheus", "9090")
  ProjectMonitoringInfo := fun p => ("project-monitoring", "cattle-prometheus-" ++ p)
  ProjectPrometheusServiceInfo := fun p => ("access-prometheus", "cattle-prometheus-" ++ p)
  parseTimeParams := fun start finish _ =>
    if start = "200" ∧ finish = "100" then
      .error (.other "InvalidTimeRange" "end is before start")
    else .ok (0, 300, 5)
  prometheusReqTimeout := 30
  jsonMarshal := fun d =>
    match d with
    | .queryMetricOutput (.mk elems) => .ok ("queryMetricOutput series " ++ toString elems.length)
    | _ => .error (.other "json" "unsupported value")
  clustermanagerUserContext := fun _ cn =>
    if cn = "c1" then .ok ⟨"c1", 1⟩ else .error (.other "NotFound" ("cluster not found: " ++ cn))
  getAuthToken := fun _ _ app ns => .ok ("token-" ++ app ++ "-" ++ ns)
  NewPrometheusQuery := fun _ _ _ _ _ _ svc =>
    if svc = "access-prometheus" then .ok ⟨1⟩ else .ok ⟨2⟩
  QueryRange := fun _ _ _ => .ok (.mk [⟨"up", [(0, 1)]⟩])
  GetLabelValues := fun _ q _ =>
    if q.handle = 1 then .ok ["cpu_usage"] else .ok ["cpu_usage", "memory_usage"]

/-- Label values of a backend whose cluster Prometheus times out. -/
def clusterLabelsTimeOut (_ : List Event) (q : Queries) (_ : String) :
    Except GoError (List String) :=
  if q.handle = 1 then .ok ["cpu_usage"] else .error (.other "Timeout" "deadline exceeded")

/-- The sample environment with a cluster Prometheus that times out. -/
def timeoutEnv : Env := { sampleEnv with GetLabelValues := clusterLabelsTimeOut }

/-- Label values returned out of order and with a repeat. -/
def unsortedLabels (_ : List Event) (_ : Queries) (_ : String) :
    Except GoError (List String) :=
  .ok ["memory_usage", "cpu_usage", "cpu_usage"]

/-- The sample environment with a backend that answers `unsortedLabels`. -/
def unsortedEnv : Env := { sampleEnv with GetLabelValues := unsortedLabels }

/-- A range query that finds no series and returns an allocated slice of
length zero. -/
def emptyQueryRange (_ : List Event) (_ : Queries) (_ : PrometheusQuery) :
    Except GoError (GoSlice TimeSeries) :=
  .ok (.mk [])

/-- The sample environment with a backend that answers `emptyQueryRange`. -/
def emptySeriesEnv : Env := { sampleEnv with QueryRange := emptyQueryRange }

/-- A token service that refuses every request. -/
def tokenDenied (_ : List Event) (_ : UserContext) (_ _ : String) : Except GoError String :=
  .error (.other "Forbidden" "service account not found")

/-- The sample environment with a token service that refuses. -/
def deniedEnv : Env := { sampleEnv with getAuthToken := tokenDenied }

/-! ## Facts about `sets.String` -/

instance : IsTotal String goStringLE := ⟨fun a b => le_total a.toList b.toList⟩

instance : IsTrans String goStringLE :=
  ⟨fun _ _ _ h1 h2 => le_trans (α := List Char) h1 h2⟩

instance : IsAntisymm String goStringLE :=
  ⟨fun _ _ h1 h2 => String.ext (le_antisymm (α := List Char) h1 h2)⟩

theorem keys_insertOne_mem (s : StringSet) (a x : String) :
    x ∈ (s.insertOne a).keys ↔ x ∈ s.keys ∨ x = a := by
  unfold StringSet.insertOne
  split
  · constructor
    · intro h; exact Or.inl h
    · rintro (h | h)
      · exact h
      · subst h; assumption
  · simp

theorem keys_insertOne_nodup (s : StringSet) (a : String) (h : s.keys.Nodup) :
    (s.insertOne a).keys.Nodup := by
  unfold StringSet.insertOne
  split
  · exact h
  · rename_i hn
    simp only [List.nodup_append, List.nodup_cons, List.not_mem_nil, not_false_eq_true,
      List.nodup_nil, and_self, true_and, h, List.disjoint_singleton, List.Disjoint]
    intro x hx hxa
    simp only [List.mem_singleton] at hxa
    subst hxa
    exact hn hx

theorem keys_Insert_mem (items : List String) (s : StringSet) (x : String) :
    x ∈ (s.Insert items).keys ↔ x ∈ s.keys ∨ x ∈ items := by
  induction items generalizing s with
  | nil => simp [StringSet.Insert]
  | cons a rest ih =>
    have h := ih (s.insertOne a)
    simp only [StringSet.Insert, List.foldl_cons] at h ⊢
    rw [h, keys_insertOne_mem, List.mem_cons]
    constructor
    · rintro ((h1 | h1) | h1)
      · exact Or.inl h1
      · exact Or.inr (Or.inl h1)
      · exact Or.inr (Or.inr h1)
    · rintro (h1 | h1 | h1)
      · exact Or.inl (Or.inl h1)
      · exact Or.inl (Or.inr h1)
      · exact Or.inr h1

theorem keys_Insert_nodup (items : List String) (s : StringSet) (h : s.keys.Nodup) :
    (s.Insert items).keys.Nodup := by
  induction items generalizing s with
  | nil => simpa [StringSet.Insert] using h
  | cons a rest ih =>
    have h2 := ih (s.insertOne a) (keys_insertOne_nodup s a h)
    simpa [StringSet.Insert] using h2

theorem mem_mergeNames (A B : List String) (x : String) :
    x ∈ mergeNames A B ↔ x ∈ A ∨ x ∈ B := by
  unfold mergeNames StringSet.List
  rw [List.mem_insertionSort, keys_Insert_mem, keys_Insert_mem]
  simp [StringSet.empty]

theorem nodup_mergeNames (A B : List String) : (mergeNames A B).Nodup := by
  unfold mergeNames StringSet.List
  refine (List.perm_insertionSort goStringLE _).nodup_iff.mpr ?_
  apply keys_Insert_nodup
  apply keys_Insert_nodup
  simp [StringSet.empty]

theorem sortedLE_mergeNames (A B : List String) : (mergeNames A B).Sorted goStringLE := by
  unfold mergeNames StringSet.List
  exact List.sorted_insertionSort goStringLE _

theorem goStringLT_of_le_of_ne (a b : String) (h : goStringLE a b) (hne : a ≠ b) :
    goStringLT a b := by
  unfold goStringLE at h
  unfold goStringLT
  refine lt_of_le_of_ne h ?_
  intro heq
  exact hne (String.ext heq)

theorem sortedLT_mergeNames (A B : List String) : (mergeNames A B).Sorted goStringLT := by
  have h1 := sortedLE_mergeNames A B
  have h2 := nodup_mergeNames A B
  unfold List.Sorted at h1 ⊢
  unfold List.Nodup at h2
  have h3 := h1.and h2
  exact h3.imp (fun {a b} hab => goStringLT_of_le_of_ne a b hab.1 hab.2)

/-- Two lists sorted by `goStringLE` without duplicates and with the same
elements are equal. -/
theorem sorted_nodup_ext (l1 l2 : List String) (s1 : l1.Sorted goStringLE)
    (s2 : l2.Sorted goStringLE) (n1 : l1.Nodup) (n2 : l2.Nodup)
    (h : ∀ x, x ∈ l1 ↔ x ∈ l2) : l1 = l2 :=
  List.eq_of_perm_of_sorted ((List.perm_ext_iff_of_nodup n1 n2).mpr h) s1 s2

/-! ## Project metric names -/

/-- C1: when the two label-value calls of `listprojectmetricname` return the
lists `projectNames` and `clusterNames`, the handler returns no error and the
one response it writes carries as `names` the merge of the two lists, which is
strictly ascending (sorted, no duplicate) and has exactly the elements of the
two lists. -/
theorem listproject_names_sorted_union (env : Env) (request : Request)
    (projectNames clusterNames : List String)
    (h : labelValueResults (Action env .listprojectmetricname request).trace =
      [projectNames, clusterNames]) :
    (Action env .listprojectmetricname request).err = none ∧
    responses (Action env .listprojectmetricname request).trace =
      [.WriteResponse StatusOK
        (some (.metricNamesOutput (mergeNames projectNames clusterNames)))] ∧
    (mergeNames projectNames clusterNames).Sorted goStringLT ∧
    (mergeNames projectNames clusterNames).Nodup ∧
    ∀ x, x ∈ mergeNames projectNames clusterNames ↔ x ∈ projectNames ∨ x ∈ clusterNames := by
  refine ⟨?_, ?_, sortedLT_mergeNames _ _, nodup_mergeNames _ _, mem_mergeNames _ _⟩
  · revert h
    simp only [Action, listProjectMetricName]
    repeat' split
    all_goals simp [labelValueResults]
  · revert h
    simp only [Action, listProjectMetricName]
    repeat' split
    all_goals simp [labelValueResults, responses, Event.isResponse, mergeNames]
    intro h1 h2
    subst h1 h2
    rfl

/-- The scenario of the specification: the project backend knows `cpu_usage`,
the cluster backend knows `cpu_usage` and `memory_usage`. -/
theorem listproject_names_sorted_union_witness :
    labelValueResults (Action sampleEnv .listprojectmetricname ⟨"c1:p1"⟩).trace =
      [["cpu_usage"], ["cpu_usage", "memory_usage"]] ∧
    responses (Action sampleEnv .listprojectmetricname ⟨"c1:p1"⟩).trace =
      [.WriteResponse StatusOK (some (.metricNamesOutput ["cpu_usage", "memory_usage"]))] :=
  ⟨by decide,
    (listproject_names_sorted_union sampleEnv ⟨"c1:p1"⟩ ["cpu_usage"]
      ["cpu_usage", "memory_usage"] (by decide)).2.1.trans (by decide)⟩

/-- C6: the merge of two name lists does not depend on their order, and
merging a list with itself gives a list with exactly the elements of that
list. -/
theorem mergeNames_comm_idem (A B : List String) :
    mergeNames A B = mergeNames B A ∧ ∀ x, x ∈ mergeNames A A ↔ x ∈ A := by
  constructor
  · apply sorted_nodup_ext _ _ (sortedLE_mergeNames A B) (sortedLE_mergeNames B A)
      (nodup_mergeNames A B) (nodup_mergeNames B A)
    intro x
    rw [mem_mergeNames, mem_mergeNames]
    exact Or.comm
  · intro x
    rw [mem_mergeNames]
    exact or_self_iff

/-- C2: when a label-value call of `listprojectmetricname` fails, the handler
returns an error and hands nothing to the caller. -/
theorem listproject_label_failure_no_response (env : Env) (request : Request)
    (h : ∃ q l e, Event.GetLabelValues q l (.error e) ∈
      (Action env .listprojectmetricname request).trace) :
    (Action env .listprojectmetricname request).err ≠ none ∧
    responses (Action env .listprojectmetricname request).trace = [] := by
  obtain ⟨q, l, e, h⟩ := h
  revert h
  simp only [Action, listProjectMetricName]
  repeat' split
  all_goals simp_all [responses, Event.isResponse]

/-- The project backend answers, the cluster backend times out: nothing is
written, the names of the project backend included. -/
theorem listproject_label_failure_no_response_witness :
    labelValueResults (Action timeoutEnv .listprojectmetricname ⟨"c1:p1"⟩).trace =
      [["cpu_usage"]] ∧
    (Action timeoutEnv .listprojectmetricname ⟨"c1:p1"⟩).err ≠ none ∧
    responses (Action timeoutEnv .listprojectmetricname ⟨"c1:p1"⟩).trace = [] :=
  ⟨by decide, listproject_label_failure_no_response timeoutEnv ⟨"c1:p1"⟩
    ⟨⟨2⟩, "__name__", .other "Timeout" "deadline exceeded", by decide⟩⟩

/-! ## Rejections before the chain starts -/

/-- C3: for each of the four actions, a request whose cluster identifier is
empty is answered with the error `clusterName is empty` (the unresolvable
scope) and causes no event at all: no registry lookup, no token request, no
backend call. -/
theorem empty_cluster_rejected_first (env : Env) (actionName : ActionName)
    (request : Request) (h : requestClusterName env actionName request = some "") :
    Action env actionName request = ⟨[], some (fmtErrorf "clusterName is empty")⟩ := by
  revert h
  cases actionName <;>
    simp only [requestClusterName, Action, queryScope, listClusterMetricName,
      listProjectMetricName] <;>
    repeat' split
  all_goals (intros; simp_all)

/-- The project reference `p1` has no cluster part. -/
theorem empty_cluster_rejected_first_witness :
    requestClusterName sampleEnv .listprojectmetricname ⟨"p1"⟩ = some "" ∧
    Action sampleEnv .listprojectmetricname ⟨"p1"⟩ =
      ⟨[], some (fmtErrorf "clusterName is empty")⟩ :=
  ⟨by decide, empty_cluster_rejected_first sampleEnv .listprojectmetricname ⟨"p1"⟩ (by decide)⟩

/-- C4: a range query whose scope resolves and whose time parameters the
parser rejects with `err` returns exactly `err` and causes no event at all: no
registry lookup, no token request, no client construction, no range query. -/
theorem rejected_time_params_stop_first (env : Env) (actionName : ActionName)
    (request : Request) (sc : QueryScope) (err : GoError)
    (ha : actionName = .querycluster ∨ actionName = .queryproject)
    (hsc : queryScope env actionName request = .ok sc)
    (ht : env.parseTimeParams sc.comm.From sc.comm.To sc.comm.Interval = .error err) :
    Action env actionName request = ⟨[], some err⟩ := by
  rcases ha with rfl | rfl <;> simp [Action, hsc, queryRange, ht]

/-- A cluster query with `to` before `from`. -/
theorem rejected_time_params_stop_first_witness :
    Action sampleEnv .querycluster ⟨"c1?from=200&to=100"⟩ =
      ⟨[], some (.other "InvalidTimeRange" "end is before start")⟩ :=
  rejected_time_params_stop_first sampleEnv .querycluster ⟨"c1?from=200&to=100"⟩
    ⟨"c1", "cluster-monitoring", "cattle-prometheus", "cattle-prometheus",
      "prometheus-operated", ⟨"200", "100", "", "up"⟩⟩
    (.other "InvalidTimeRange" "end is before start") (Or.inl rfl) (by decide) (by decide)

/-! ## Range queries -/

/-- C5, as the code has it: after a successful range query the handler writes
the no-content response exactly when the result is the `nil` slice; an
allocated result, also one of length zero, is marshalled and written as the
body, and only a failing marshal makes the handler return an error. -/
theorem range_query_response (env : Env) (actionName : ActionName) (request : Request)
    (series : GoSlice TimeSeries)
    (ha : actionName = .querycluster ∨ actionName = .queryproject)
    (h : queryRangeResults (Action env actionName request).trace = [series]) :
    (series = .nil →
      (Action env actionName request).err = none ∧
      responses (Action env actionName request).trace =
        [.WriteResponse StatusNoContent none]) ∧
    (∀ elems, series = .mk elems →
      ∀ body, env.jsonMarshal (.queryMetricOutput series) = .ok body →
      (Action env actionName request).err = none ∧
      responses (Action env actionName request).trace = [.ResponseWrite body]) ∧
    (∀ elems, series = .mk elems →
      ∀ err, env.jsonMarshal (.queryMetricOutput series) = .error err →
      (Action env actionName request).err =
        some (fmtErrorfV "marshal query stats result failed, " err) ∧
      responses (Action env actionName request).trace = []) := by
  revert h
  rcases ha with rfl | rfl <;>
    simp only [Action, queryRange] <;>
    repeat' split
  all_goals simp [queryRangeResults, responses, Event.isResponse]
  all_goals (intros; subst_vars; simp_all)

/-- A cluster query that finds one series. -/
theorem range_query_response_witness :
    (Action sampleEnv .querycluster ⟨"c1"⟩).err = none ∧
    responses (Action sampleEnv .querycluster ⟨"c1"⟩).trace =
      [.ResponseWrite "queryMetricOutput series 1"] :=
  (range_query_response sampleEnv .querycluster ⟨"c1"⟩ (.mk [⟨"up", [(0, 1)]⟩])
    (Or.inl rfl) (by decide)).2.1 [⟨"up", [(0, 1)]⟩] rfl "queryMetricOutput series 1"
    (by decide)

/-- C5 fails as stated: a range query that returns an allocated slice of
length zero is answered with a body, not with the no-content response. -/
theorem empty_slice_gets_a_body :
    queryRangeResults (Action emptySeriesEnv .querycluster ⟨"c1"⟩).trace = [.mk []] ∧
    (GoSlice.mk [] : GoSlice TimeSeries).len = 0 ∧
    (Action emptySeriesEnv .querycluster ⟨"c1"⟩).err = none ∧
    responses (Action emptySeriesEnv .querycluster ⟨"c1"⟩).trace =
      [.ResponseWrite "queryMetricOutput series 0"] ∧
    Event.WriteResponse StatusNoContent none ∉
      (Action emptySeriesEnv .querycluster ⟨"c1"⟩).trace := by
  decide

/-! ## Errors of the chain -/

/-- C7 fails as stated: the error of the cluster registry is not returned as
it is; the handler returns a new error that quotes its message. -/
theorem lookup_error_is_replaced :
    (Action sampleEnv .querycluster ⟨"c2"⟩).trace =
      [.UserContext "c2" (.error (.other "NotFound" "cluster not found: c2"))] ∧
    (Action sampleEnv .querycluster ⟨"c2"⟩).err =
      some (.errorString "get usercontext failed, cluster not found: c2") ∧
    (Action sampleEnv .querycluster ⟨"c2"⟩).err ≠
      some (.other "NotFound" "cluster not found: c2") := by
  decide

/-- C7, as the code has it: when a call of the chain fails with `err`, the
handler returns `reportedError`: `err` itself after a failed token request,
client construction, range query or cluster-listing label call, and a new
error quoting the message of `err` after a failed registry lookup or a failed
label call of the project listing.  The failed call is the last call the
handler makes and the only call that failed. -/
theorem failed_call_ends_chain (env : Env) (actionName : ActionName) (request : Request)
    (ev : Event) (err : GoError)
    (hev : ev ∈ (Action env actionName request).trace) (hf : ev.failure = some err) :
    (Action env actionName request).err =
      some (reportedError actionName (Action env actionName request).trace ev err) ∧
    ((Action env actionName request).trace.filter Event.isCall).getLast? = some ev ∧
    (Action env actionName request).trace.filter (fun x => x.failure.isSome) = [ev] := by
  have key : ∀ x ∈ (Action env actionName request).trace, ∀ e, x.failure = some e →
      (Action env actionName request).err =
        some (reportedError actionName (Action env actionName request).trace x e) ∧
      ((Action env actionName request).trace.filter Event.isCall).getLast? = some x ∧
      (Action env actionName request).trace.filter (fun y => y.failure.isSome) = [x] := by
    cases actionName <;>
      simp only [Action, queryRange, listClusterMetricName, listProjectMetricName] <;>
      repeat' split
    all_goals simp [Event.failure, Event.isCall, reportedError, labelValueResults]
  exact key ev hev err hf

/-- A refused token request: the error is returned as it is and nothing is
called afterwards. -/
theorem failed_call_ends_chain_witness :
    (Action deniedEnv .listclustermetricname ⟨"c1"⟩).err =
      some (.other "Forbidden" "service account not found") ∧
    ((Action deniedEnv .listclustermetricname ⟨"c1"⟩).trace.filter Event.isCall).getLast? =
      some (.getAuthToken ⟨"c1", 1⟩ "cluster-monitoring" "cattle-prometheus"
        (.error (.other "Forbidden" "service account not found"))) :=
  have h := failed_call_ends_chain deniedEnv .listclustermetricname ⟨"c1"⟩
    (.getAuthToken ⟨"c1", 1⟩ "cluster-monitoring" "cattle-prometheus"
      (.error (.other "Forbidden" "service account not found")))
    (.other "Forbidden" "service account not found") (by decide) (by decide)
  ⟨h.1.trans (by decide), h.2.1⟩

/-! ## Tokens of the project listing -/

/-- C8 fails as stated: the project listing requests one token only, for the
project-monitoring service account, and constructs the client of the cluster
backend with that token; no token is requested for the cluster-monitoring
service account. -/
theorem listproject_single_token :
    sampleEnv.ClusterMonitoringInfo = ("cluster-monitoring", "cattle-prometheus") ∧
    (Action sampleEnv .listprojectmetricname ⟨"c1:p1"⟩).err = none ∧
    tokenRequests (Action sampleEnv .listprojectmetricname ⟨"c1:p1"⟩).trace =
      [("project-monitoring", "cattle-prometheus-p1",
        .ok "token-project-monitoring-cattle-prometheus-p1")] ∧
    clientTokens (Action sampleEnv .listprojectmetricname ⟨"c1:p1"⟩).trace =
      [("cattle-prometheus-p1", "access-prometheus",
          "token-project-monitoring-cattle-prometheus-p1"),
        ("cattle-prometheus", "prometheus-operated",
          "token-project-monitoring-cattle-prometheus-p1")] := by
  decide

/-- C8, as the code has it: a project listing that succeeds has requested
exactly one token, for the project-monitoring service account of the project,
and has constructed both clients, the one of the project backend and the one
of the cluster backend, with that token. -/
theorem listproject_one_token_both_clients (env : Env) (request : Request)
    (actionInput : ActionInput) (input : ProjectMetricNamesInput)
    (hb : env.ReadBody request = .ok actionInput)
    (ho : env.ToObjProjectMetricNames actionInput = .ok input)
    (hok : (Action env .listprojectmetricname request).err = none) :
    ∃ token,
      tokenRequests (Action env .listprojectmetricname request).trace =
        [((env.ProjectMonitoringInfo (env.refParse input.ProjectName).2).1,
          (env.ProjectMonitoringInfo (env.refParse input.ProjectName).2).2, .ok token)] ∧
      clientTokens (Action env .listprojectmetricname request).trace =
        [((env.ProjectPrometheusServiceInfo (env.refParse input.ProjectName).2).2,
            (env.ProjectPrometheusServiceInfo (env.refParse input.ProjectName).2).1, token),
          (env.ClusterPrometheusEndpoint.2.1, env.ClusterPrometheusEndpoint.1, token)] := by
  revert hok
  simp only [Action, listProjectMetricName, hb, ho]
  repeat' split
  all_goals simp_all [tokenRequests, clientTokens]

/-- The listing of project `c1:p1` in the sample environment. -/
theorem listproject_one_token_both_clients_witness :
    ∃ token,
      tokenRequests (Action sampleEnv .listprojectmetricname ⟨"c1:p1"⟩).trace =
        [("project-monitoring", "cattle-prometheus-p1", .ok token)] ∧
      clientTokens (Action sampleEnv .listprojectmetricname ⟨"c1:p1"⟩).trace =
        [("cattle-prometheus-p1", "access-prometheus", token),
          ("cattle-prometheus", "prometheus-operated", token)] :=
  listproject_one_token_both_clients sampleEnv ⟨"c1:p1"⟩ [("name", "c1:p1")] ⟨"c1:p1"⟩
    (by decide) (by decide) (by decide)

/-! ## Cluster metric names -/

/-- C9 fails as stated: the cluster listing hands the names on as the backend
returned them, here out of order and with a repeat. -/
theorem listcluster_names_not_normalised :
    labelValueResults (Action unsortedEnv .listclustermetricname ⟨"c1"⟩).trace =
      [["memory_usage", "cpu_usage", "cpu_usage"]] ∧
    (Action unsortedEnv .listclustermetricname ⟨"c1"⟩).err = none ∧
    writtenNames (Action unsortedEnv .listclustermetricname ⟨"c1"⟩).trace =
      [["memory_usage", "cpu_usage", "cpu_usage"]] ∧
    ¬ List.Sorted goStringLE ["memory_usage", "cpu_usage", "cpu_usage"] ∧
    ¬ List.Nodup ["memory_usage", "cpu_usage", "cpu_usage"] := by
  decide

/-- C9, as the code has it: when the label-value call of
`listclustermetricname` returns `names`, the handler returns no error and the
one response it writes carries exactly `names`, in the order and with the
repeats of the backend. -/
theorem listcluster_names_passed_through (env : Env) (request : Request)
    (names : List String)
    (h : labelValueResults (Action env .listclustermetricname request).trace = [names]) :
    (Action env .listclustermetricname request).err = none ∧
    responses (Action env .listclustermetricname request).trace =
      [.WriteResponse StatusOK (some (.metricNamesOutput names))] := by
  revert h
  simp only [Action, listClusterMetricName]
  repeat' split
  all_goals simp [labelValueResults, responses, Event.isResponse]

/-- The cluster listing of `c1` in the sample environment. -/
theorem listcluster_names_passed_through_witness :
    responses (Action sampleEnv .listclustermetricname ⟨"c1"⟩).trace =
      [.WriteResponse StatusOK (some (.metricNamesOutput ["cpu_usage", "memory_usage"]))] :=
  (listcluster_names_passed_through sampleEnv ⟨"c1"⟩ ["cpu_usage", "memory_usage"]
    (by decide)).2

/-! ## The deadline of a range query -/

/-- C10 fails as stated: the registry lookup and the token request come
first, and only then is the deadline created. -/
theorem deadline_created_after_token :
    (Action sampleEnv .querycluster ⟨"c1"⟩).trace.take 3 =
      [.UserContext "c1" (.ok ⟨"c1", 1⟩),
        .getAuthToken ⟨"c1", 1⟩ "cluster-monitoring" "cattle-prometheus"
          (.ok "token-cluster-monitoring-cattle-prometheus"),
        .WithTimeout (.WithTimeout .Background 30)] := by
  decide

/-- C10, as the code has it: in a range query the deadline is the background
context with the fixed request timeout; it is created after the registry
lookup and the token request have succeeded (neither takes a context), it is
passed to the construction of the client, every range query that follows is
sent through the client so constructed, and the cancel function of the same
deadline is the last thing called. -/
theorem range_query_deadline (env : Env) (actionName : ActionName) (request : Request)
    (c : Context)
    (ha : actionName = .querycluster ∨ actionName = .queryproject)
    (h : Event.WithTimeout c ∈ (Action env actionName request).trace) :
    c = .WithTimeout .Background env.prometheusReqTimeout ∧
    ∃ cn uc app ns token svcNs svc res rest,
      (Action env actionName request).trace =
        .UserContext cn (.ok uc) :: .getAuthToken uc app ns (.ok token) :: .WithTimeout c ::
          .NewPrometheusQuery c uc cn token svcNs svc res :: rest ∧
      (∀ ev ∈ rest, (∃ q query r, ev = .QueryRange q query r ∧ res = .ok q) ∨
        ev.isResponse = true ∨ ev = .cancel c) ∧
      rest.getLast? = some (.cancel c) := by
  revert h
  rcases ha with rfl | rfl <;>
    simp only [Action, queryRange] <;>
    repeat' split
  all_goals simp only [List.cons_append, List.nil_append, List.append_assoc, List.mem_cons,
    List.mem_singleton, List.not_mem_nil, reduceCtorEq, false_or, or_false, false_imp_iff,
    Event.WithTimeout.injEq]
  all_goals
    intro h
    subst h
    refine ⟨rfl, _, _, _, _, _, _, _, _, _, rfl, ?_, ?_⟩ <;>
    simp [Event.isResponse]

/-- A cluster query in the sample environment. -/
theorem range_query_deadline_witness :
    (.WithTimeout .Background 30 : Context) =
      .WithTimeout .Background sampleEnv.prometheusReqTimeout ∧
    ∃ cn uc app ns token svcNs svc res rest,
      (Action sampleEnv .querycluster ⟨"c1"⟩).trace =
        .UserContext cn (.ok uc) :: .getAuthToken uc app ns (.ok token) ::
          .WithTimeout (.WithTimeout .Background 30) ::
          .NewPrometheusQuery (.WithTimeout .Background 30) uc cn token svcNs svc res :: rest ∧
      (∀ ev ∈ rest, (∃ q query r, ev = .QueryRange q query r ∧ res = .ok q) ∨
        ev.isResponse = true ∨ ev = .cancel (.WithTimeout .Background 30)) ∧
      rest.getLast? = some (.cancel (.WithTimeout .Background 30)) :=
  range_query_deadline sampleEnv .querycluster ⟨"c1"⟩ (.WithTimeout .Background 30)
    (Or.inl rfl) (by decide)

end Monitor
